import Mathlib

/-!
Verification of the generation-request pipeline of `autogenlib/_generator.py`.

Python strings are modelled as `List Char`.  The Python string operations used
by the source (`strip`, `split`, `startswith`, the substring test `in`, and
`replace(old, new, 1)`) are modelled by the executable functions below.
External collaborators (the cache interface imported from `._cache`, the
process environment, the OpenAI client and `ast.parse`) are modelled as
explicit parameters of the functions that use them.
-/

/-- The whitespace characters stripped by Python `str.strip()` (the common
ASCII whitespace set; exotic Unicode whitespace is not modelled). -/
def pySpace (c : Char) : Bool :=
  c = ' ' || c = '\t' || c = '\n' || c = '\r' || c = '\x0b' || c = '\x0c'

/-- Python `s.strip()`: remove whitespace from both ends of the string. -/
def pyStrip (s : List Char) : List Char :=
  ((s.dropWhile pySpace).reverse.dropWhile pySpace).reverse

/-- Python `s.replace(pat, repl, 1)`: replace the leftmost occurrence of
`pat` in `s` by `repl`; if `pat` does not occur, return `s` unchanged. -/
def replaceFirst (pat repl : List Char) : List Char → List Char
  | [] => if pat.isPrefixOf ([] : List Char) then repl else []
  | c :: rest =>
    if pat.isPrefixOf (c :: rest) then repl ++ (c :: rest).drop pat.length
    else c :: replaceFirst pat repl rest

/-- Python `pat in s`: substring test on strings. -/
def pyIn (pat : List Char) : List Char → Bool
  | [] => pat.isPrefixOf ([] : List Char)
  | c :: rest => pat.isPrefixOf (c :: rest) || pyIn pat rest

/-- The `caller_info` dictionary (keys `filename` and `code`). -/
structure CallerInfo where
  filename : List Char
  code : List Char

/-- Modelled from the spec: outcome of the external `ast.parse` on a source
text.  `ast.parse` belongs to the Python standard library, not to this
repository; its failure mode on syntactically invalid source is a
`SyntaxError`, which is the exception `validate_code` catches. -/
inductive AstParseResult where
  | ok
  | syntaxError
deriving DecidableEq

/-- Outcome of the external chat-completion call: the text content of the top
response choice, or a raised exception (any transport or API failure). -/
inductive ServiceResult where
  | ok (content : List Char)
  | err

/-- The environment variables read by `generate_code`.  A value of `none`
models an unset variable. -/
structure GenEnv where
  openai_api_key : Option (List Char)
  openai_api_base_url : Option (List Char)
  openai_model : Option (List Char)

/-- `validate_code` (`_generator.py` lines 12-19): run the parser on the text;
return `True` when it parses, `False` on a `SyntaxError`. -/
def validate_code (parse : List Char → AstParseResult) (code : List Char) : Bool :=
  match parse code with
  | AstParseResult.ok => true
  | AstParseResult.syntaxError => false

/-- `get_codebase_context` (`_generator.py` lines 22-35).  The mapping of all
cached modules (`get_all_modules()` from `._cache`) is passed explicitly as an
association list in iteration order; the value component models the optional
`"code"` key of each entry. -/
def get_codebase_context (modules : List (List Char × Option (List Char))) : List Char :=
  if modules.isEmpty then []
  else
    modules.foldl
      (fun context md =>
        match md.2 with
        | some code =>
            context ++ "# Module: ".toList ++ md.1 ++ "\n```python\n".toList
              ++ code ++ "\n```\n\n".toList
        | none => context)
      "Here is the existing codebase for reference:\n\n".toList

/-- `check_if_empty_module_needed` (`_generator.py` lines 38-77). -/
def check_if_empty_module_needed (fullname : List Char)
    (caller_info : Option CallerInfo) : Bool :=
  match caller_info with
  | none => false
  | some ci =>
    if ci.code.isEmpty then false
    else
      let parts := fullname.splitOn '.'
      if parts.length ≤ 2 then false
      else
        let code := ci.code
        -- line 60 of the source binds `module_name = ".".join(parts[:2])`
        -- but never uses it afterwards
        let _module_name := List.intercalate ".".toList (parts.take 2)
        let usage := parts.getD 1 [] ++ ".".toList
        if pyIn usage code &&
            !(((code.splitOn '\n').filter
                (fun line => pyIn usage line && pyIn "import".toList line)).all
              (fun line => pyIn usage line)) then
          false
        else
          let parentModule :=
            "from ".toList ++ parts.getD 0 [] ++ ".".toList ++ parts.getD 1 []
          let childModules := (code.splitOn '\n').filter
            (fun line => pyIn parentModule line && pyIn "import".toList line)
          decide (0 < childModules.length)

/-- Python truthiness of an optional string (`None` and the empty string are
falsy). -/
def truthyOpt (s : Option (List Char)) : Bool :=
  match s with
  | some v => !v.isEmpty
  | none => false

/-- `function_name = parts[2] if len(parts) > 2 else None`
(`_generator.py` line 87). -/
def function_name_of (fullname : List Char) : Option (List Char) :=
  let parts := fullname.splitOn '.'
  if 2 < parts.length then some (parts.getD 2 []) else none

/-- `current_description = cached_prompt or description`
(`_generator.py` lines 92-95); `get_cached_prompt` from `._cache` is passed
explicitly as `gcp`.  Note the Python `or`: an empty cached string also falls
back to the caller-supplied description. -/
def current_description_of (gcp : List Char → Option (List Char))
    (description fullname : List Char) : List Char :=
  let parts := fullname.splitOn '.'
  match gcp (List.intercalate ".".toList (parts.take 2)) with
  | some c => if c.isEmpty then description else c
  | none => description

/-- Literal text of the caller-context block with relevant snippets
(`_generator.py` lines 129-144), split at the interpolation points. -/
def cr1 : List Char :=
  "\n            Here is the code that is importing and using this module/function:\n            ```python\n            # File: ".toList

def cr2 : List Char :=
  "\n            # --- Relevant snippets ---\n            ".toList

def cr3 : List Char :=
  "\n            ```\n            \n            And here is the full context:\n            ```python\n            ".toList

def cr4 : List Char :=
  "\n            ```\n            \n            Analyze how the requested functionality will be used in the code snippets above.\n            Pay special attention to parameter types, return values, and expected behavior.\n            ".toList

/-- Literal text of the caller-context block without snippets
(`_generator.py` lines 146-155), split at the interpolation points. -/
def cf1 : List Char :=
  "\n            Here is the code that is importing this module/function:\n            ```python\n            # File: ".toList

def cf2 : List Char := "\n            ".toList

def cf3 : List Char :=
  "\n            ```\n            \n            Analyze how the requested functionality will be used in this code.\n            Pay special attention to parameter types, return values, and expected behavior.\n            ".toList

/-- The `relevant_parts` list accumulated by the relevance filter
(`_generator.py` lines 106-125). -/
def relevant_parts_of (fullname code : List Char) : List (List Char) :=
  let module_parts := fullname.splitOn '.'
  if 2 ≤ module_parts.length then
    let modulePre :=
      "from ".toList ++ module_parts.getD 0 [] ++ ".".toList
        ++ module_parts.getD 1 []
    let impLines := (code.splitOn '\n').filter (fun line => pyIn modulePre line)
    let withImports := if impLines.isEmpty then ([] : List (List Char)) else impLines
    if 3 ≤ module_parts.length then
      let func_name := module_parts.getD 2 []
      let usageLines := (code.splitOn '\n').filter
        (fun line => pyIn func_name line &&
          !("import ".toList.isPrefixOf line) && !("from ".toList.isPrefixOf line))
      if usageLines.isEmpty then withImports else withImports ++ usageLines
    else withImports
  else []

/-- Caller-context block construction (`_generator.py` lines 100-157). -/
def caller_context_of (fullname : List Char)
    (caller_info : Option CallerInfo) : List Char :=
  match caller_info with
  | none => []
  | some ci =>
    if ci.code.isEmpty then []
    else
      let code := ci.code
      let relevant_parts := relevant_parts_of fullname code
      if !relevant_parts.isEmpty then
        cr1 ++ ci.filename ++ cr2 ++ List.intercalate "\n".toList relevant_parts
          ++ cr3 ++ code ++ cr4
      else
        cf1 ++ ci.filename ++ cf2 ++ code ++ cf3

/-- Empty-module instruction block (`_generator.py` lines 160-168). -/
def emptyModuleText (fullname : List Char) : List Char :=
  "\n        IMPORTANT: Based on the calling code analysis, this module \x27".toList
    ++ fullname
    ++ "\x27 appears to be \n        primarily used for namespacing/structural purposes rather than for its own functionality.\n        \n        If appropriate, you may generate a minimal module with just necessary imports and docstrings,\n        but without substantial implementation if the code doesn\x27t show direct usage of this module.\n        ".toList

/-- The casing heuristic
`"function" if not function_name[0].isupper() else "class"`. -/
def fnWord (function_name : List Char) : List Char :=
  if (function_name.headD ' ').isUpper then "class".toList else "function".toList

/-- The separator `\n        \n        ` between interpolated blocks in all
three prompt templates. -/
def sep8 : List Char := "\n        \n        ".toList

/-- The shared literal ` named \x27` preceding the symbol name. -/
def nmq : List Char := " named \x27".toList

/-- The shared literal `\x27 that implements the following functionality:`
followed by the indentation of the description line. -/
def implSuf : List Char :=
  "\x27 that implements the following functionality:\n        ".toList

/-- Literal text of the extend-existing-module template
(`_generator.py` lines 171-203), split at the interpolation points. -/
def t1a : List Char :=
  "\n        You are extending an existing Python module named \x27".toList

def t1b : List Char :=
  "\x27.\n        \n        The overall purpose of this library is:\n        ".toList

def t1c : List Char :=
  "\n        \n        Here is the existing code for this module:\n        ```python\n        ".toList

def t1d : List Char := "\n        ```\n        \n        ".toList

def t1g : List Char := "\n        \n        I need you to add a new ".toList

def t1j : List Char :=
  "\n        \n        IMPORTANT REQUIREMENTS:\n        1. Maintain consistency with the existing code style, naming patterns, and error handling\n        2. Keep all existing functions and classes intact\n        3. Add comprehensive docstrings with parameters, returns, and exceptions\n        4. Use type hints for better code clarity when appropriate\n        5. Analyze the caller code carefully to ensure the function works with existing data structures\n        6. If analysis suggests this is purely for structural imports with no actual functionality needed,\n           provide minimal implementation with appropriate comments\n        \n        Return the COMPLETE module code including both existing functionality and the new function.\n        Your response must be ONLY valid Python code without any explanations or markdown.\n        ".toList

/-- Prompt template for extending an existing module
(`_generator.py` lines 171-203). -/
def template1 (mn cd ex cc callc emc fw fn d : List Char) : List Char :=
  t1a ++ mn ++ t1b ++ cd ++ t1c ++ ex ++ t1d ++ cc ++ sep8 ++ callc
    ++ sep8 ++ emc ++ t1g ++ fw ++ nmq ++ fn ++ implSuf ++ d ++ t1j

/-- Literal text of the new-module template (`_generator.py` lines 204-226),
split at the interpolation points. -/
def t2a : List Char := "\n        Create a Python module named \x27".toList

def t2b : List Char := "\x27 with a ".toList

def t2e : List Char :=
  "\n        \n        IMPORTANT REQUIREMENTS:\n        1. Start with a clear module docstring explaining the purpose\n        2. Include detailed docstrings with parameters, returns, and exceptions\n        3. Use type hints when appropriate for clarity\n        4. Implement robust error handling with specific exception types\n        5. Follow strict PEP 8 style guidelines\n        6. Analyze the caller context carefully to match the expected usage pattern\n        7. If analysis suggests this is purely for structural imports with no actual functionality needed,\n           provide minimal implementation with appropriate comments\n        \n        Your response must be ONLY valid Python code without any explanations or markdown.\n        ".toList

/-- Prompt template for a new module with one symbol
(`_generator.py` lines 204-226). -/
def template2 (mn fw fn d cc callc emc : List Char) : List Char :=
  t2a ++ mn ++ t2b ++ fw ++ nmq ++ fn ++ implSuf ++ d ++ sep8 ++ cc
    ++ sep8 ++ callc ++ sep8 ++ emc ++ t2e

/-- Literal text of the new-package template (`_generator.py` lines 227-249),
split at the interpolation points. -/
def t3a : List Char := "\n        Create a Python package named \x27".toList

def t3e : List Char :=
  "\n        \n        IMPORTANT REQUIREMENTS:\n        1. Start with a clear module docstring explaining the purpose\n        2. Implement functions/classes that fulfill the described purpose\n        3. Include detailed docstrings with parameters, returns, and exceptions\n        4. Use type hints when appropriate for clarity\n        5. Follow strict PEP 8 style guidelines\n        6. Analyze the caller context to structure the package in a way that matches expected usage\n        7. If analysis suggests this is purely for structural imports with no actual functionality needed,\n           provide minimal implementation with appropriate comments\n        \n        Do not generate any additional Python files. Provide only the Python code without explanations.\n        ".toList

/-- Prompt template for a new package (`_generator.py` lines 227-249). -/
def template3 (mn d cc callc emc : List Char) : List Char :=
  t3a ++ mn ++ implSuf ++ d ++ sep8 ++ cc ++ sep8 ++ callc ++ sep8 ++ emc ++ t3e

/-- The prompt constructed by `generate_code`
(`_generator.py` lines 82-249, the pure part before the `try` block). -/
def build_prompt (gcp : List Char → Option (List Char))
    (modules : List (List Char × Option (List Char)))
    (description fullname : List Char)
    (existing_code : Option (List Char)) (caller_info : Option CallerInfo) : List Char :=
  let parts := fullname.splitOn '.'
  let module_name := parts.getD 1 []
  let function_name := function_name_of fullname
  let current_description := current_description_of gcp description fullname
  let codebase_context := get_codebase_context modules
  let caller_context := caller_context_of fullname caller_info
  let is_empty_module := check_if_empty_module_needed fullname caller_info
  let empty_module_context := if is_empty_module then emptyModuleText fullname else []
  if truthyOpt function_name && truthyOpt existing_code then
    template1 module_name current_description (existing_code.getD [])
      codebase_context caller_context empty_module_context
      (fnWord (function_name.getD [])) (function_name.getD []) description
  else if truthyOpt function_name then
    template2 module_name (fnWord (function_name.getD [])) (function_name.getD [])
      description codebase_context caller_context empty_module_context
  else
    template3 module_name description codebase_context caller_context
      empty_module_context

/-- The fence-removal branch applied to the already-trimmed response
(`_generator.py` lines 305-311): two `replace(..., "", 1)` calls, selected by
the `startswith` tests. -/
def strip_fences (code : List Char) : List Char :=
  if "```python".toList.isPrefixOf code then
    replaceFirst "```".toList [] (replaceFirst "```python".toList [] code)
  else if "```".toList.isPrefixOf code then
    replaceFirst "```".toList [] (replaceFirst "```".toList [] code)
  else code

/-- Markdown fence stripping applied to the service response
(`_generator.py` lines 300-313): trim, remove fences, trim again. -/
def strip_markdown (content : List Char) : List Char :=
  pyStrip (strip_fences (pyStrip content))

/-- `generate_code` (`_generator.py` lines 80-323).  The external
collaborators are explicit parameters: `gcp` is `get_cached_prompt`,
`modules` the mapping read by `get_all_modules`, `env` the process
environment, `service` the chat-completion call (the fixed system message
passed alongside the prompt is a constant of the source and is absorbed into
`service`), `parse` the external `ast.parse`.  The result is the returned
value paired with a flag recording whether the generation service was
invoked. -/
def generate_code (gcp : List Char → Option (List Char))
    (modules : List (List Char × Option (List Char)))
    (env : GenEnv) (service : List Char → ServiceResult)
    (parse : List Char → AstParseResult)
    (description fullname : List Char)
    (existing_code : Option (List Char)) (caller_info : Option CallerInfo) :
    Option (List Char) × Bool :=
  let parts := fullname.splitOn '.'
  if parts.length < 2 then (none, false)
  else
    let prompt := build_prompt gcp modules description fullname existing_code caller_info
    match env.openai_api_key with
    | none => (none, false)
    | some k =>
      if k.isEmpty then (none, false)
      else
        match service prompt with
        | ServiceResult.err => (none, true)
        | ServiceResult.ok content =>
          let code := strip_markdown content
          if validate_code parse code then (some code, true) else (none, true)

section Helpers

variable {α : Type _}

theorem infix_of_decomp {m l : List α} (A B : List α) (h : l = A ++ m ++ B) :
    m <:+: l :=
  ⟨A, B, h.symm⟩

theorem infix_extend_right {m l : List α} (h : m <:+: l) (r : List α) :
    m <:+: l ++ r := by
  obtain ⟨s, t, rfl⟩ := h
  exact ⟨s, t ++ r, by simp [List.append_assoc]⟩

theorem infix_extend_left (lft : List α) {m r : List α} (h : m <:+: r) :
    m <:+: lft ++ r := by
  obtain ⟨s, t, rfl⟩ := h
  exact ⟨lft ++ s, t, by simp [List.append_assoc]⟩

theorem infix_append_self (l m : List α) : m <:+: l ++ m :=
  ⟨l, [], by simp⟩

end Helpers

/-- C1: the spec requires `check_if_empty_module_needed` to return true only
when every caller line referencing the two-segment prefix followed by a dot is
an import statement, and in particular to return false for dotted name
`lib.crypto.hash.md5` with caller code containing both
`from lib.crypto import hash` and `crypto.hash.md5(x)`.  The code violates
this: at that very input it returns true, because the guard at lines 63-68
filters the lines by the same test it then checks with `all(...)`, so the
`all` is vacuously true and the direct-usage line is never detected.  This
theorem evaluates the code at the failing input. -/
theorem c1_heuristic_true_despite_direct_usage :
    check_if_empty_module_needed "lib.crypto.hash.md5".toList
      (some ⟨"caller.py".toList,
        "from lib.crypto import hash\ncrypto.hash.md5(x)".toList⟩) = true := by
  decide

/-- C4: for dotted name `lib.crypto.hash.md5` and caller code consisting only
of the line `from lib.crypto import hash` (which contains no other reference
to `crypto.`), `check_if_empty_module_needed` returns true. -/
theorem c4_namespacing_only_example_true :
    check_if_empty_module_needed "lib.crypto.hash.md5".toList
      (some ⟨"caller.py".toList, "from lib.crypto import hash".toList⟩) = true := by
  decide

/-- C5: `validate_code` is a total boolean function of the parser outcome: it
returns true exactly when the text parses, false exactly when the parser
signals a syntax error, and (being total in the model, where the external
parser fails only with a syntax error) it never propagates an exception. -/
theorem c5_validate_code_total_boolean :
    ∀ (parse : List Char → AstParseResult) (code : List Char),
      (validate_code parse code = true ↔ parse code = AstParseResult.ok) ∧
      (validate_code parse code = false ↔ parse code = AstParseResult.syntaxError) := by
  intro parse code
  cases h : parse code <;> simp [validate_code, h]

/-- C7: when the `OPENAI_API_KEY` credential is absent from the environment,
`generate_code` returns no result and the generation service is never
invoked (the returned flag records that no service call was made). -/
theorem c7_missing_credential_no_service_call
    (gcp : List Char → Option (List Char))
    (modules : List (List Char × Option (List Char)))
    (env : GenEnv) (service : List Char → ServiceResult)
    (parse : List Char → AstParseResult)
    (description fullname : List Char)
    (existing_code : Option (List Char)) (caller_info : Option CallerInfo)
    (h : env.openai_api_key = none) :
    generate_code gcp modules env service parse description fullname
      existing_code caller_info = (none, false) := by
  unfold generate_code
  by_cases hl : (fullname.splitOn '.').length < 2
  · simp [hl]
  · simp [hl, h]

theorem c7_witness :
    (GenEnv.mk none none none).openai_api_key = none ∧
    generate_code (fun _ => none) [] (GenEnv.mk none none none)
      (fun _ => ServiceResult.err) (fun _ => AstParseResult.ok)
      "d".toList "a.b".toList none none = (none, false) :=
  ⟨rfl,
    c7_missing_credential_no_service_call (fun _ => none) [] (GenEnv.mk none none none)
      (fun _ => ServiceResult.err) (fun _ => AstParseResult.ok)
      "d".toList "a.b".toList none none rfl⟩

/-- C8: for every dotted name with fewer than two dot-separated segments,
`generate_code` returns no result and the generation service is never
invoked. -/
theorem c8_short_name_no_result
    (gcp : List Char → Option (List Char))
    (modules : List (List Char × Option (List Char)))
    (env : GenEnv) (service : List Char → ServiceResult)
    (parse : List Char → AstParseResult)
    (description fullname : List Char)
    (existing_code : Option (List Char)) (caller_info : Option CallerInfo)
    (h : (fullname.splitOn '.').length < 2) :
    generate_code gcp modules env service parse description fullname
      existing_code caller_info = (none, false) := by
  unfold generate_code
  simp [h]

theorem c8_witness :
    ("abc".toList.splitOn '.').length < 2 ∧
    generate_code (fun _ => none) [] (GenEnv.mk (some "k".toList) none none)
      (fun _ => ServiceResult.err) (fun _ => AstParseResult.ok)
      "d".toList "abc".toList none none = (none, false) :=
  ⟨by decide,
    c8_short_name_no_result (fun _ => none) [] (GenEnv.mk (some "k".toList) none none)
      (fun _ => ServiceResult.err) (fun _ => AstParseResult.ok)
      "d".toList "abc".toList none none (by decide)⟩

/-- C6: `generate_code` returns either a text that passes syntactic
validation or `none`; when the service response fails validation the result
is `none`, so invalid text is never handed back (and the function writes to
no store at all). -/
theorem c6_result_validated_or_none
    (gcp : List Char → Option (List Char))
    (modules : List (List Char × Option (List Char)))
    (env : GenEnv) (service : List Char → ServiceResult)
    (parse : List Char → AstParseResult)
    (description fullname : List Char)
    (existing_code : Option (List Char)) (caller_info : Option CallerInfo) :
    (generate_code gcp modules env service parse description fullname
        existing_code caller_info).1 = none ∨
      ∃ c, (generate_code gcp modules env service parse description fullname
        existing_code caller_info).1 = some c ∧ parse c = AstParseResult.ok := by
  unfold generate_code
  by_cases hl : (fullname.splitOn '.').length < 2
  · simp [hl]
  · cases hk : env.openai_api_key with
    | none => simp [hl, hk]
    | some k =>
      by_cases hke : k.isEmpty
      · simp [hl, hk, hke]
      · cases hs : service (build_prompt gcp modules description fullname
            existing_code caller_info) with
        | err => simp [hl, hk, hke, hs]
        | ok content =>
          cases hv : parse (strip_markdown content) with
          | ok =>
            right
            exact ⟨strip_markdown content,
              by simp [hl, hk, hke, hs, validate_code, hv], hv⟩
          | syntaxError =>
            left
            simp [hl, hk, hke, hs, validate_code, hv]

/-- The text appended to the codebase context for one cached module entry
(empty when the entry has no `code` field). -/
def ctxChunk (md : List Char × Option (List Char)) : List Char :=
  match md.2 with
  | some code =>
      "# Module: ".toList ++ md.1 ++ "\n```python\n".toList
        ++ code ++ "\n```\n\n".toList
  | none => []

theorem foldl_ctxChunk (l : List (List Char × Option (List Char))) (init : List Char) :
    l.foldl
      (fun context md =>
        match md.2 with
        | some code =>
            context ++ "# Module: ".toList ++ md.1 ++ "\n```python\n".toList
              ++ code ++ "\n```\n\n".toList
        | none => context) init
    = init ++ (l.map ctxChunk).flatten := by
  induction l generalizing init with
  | nil => simp
  | cons md tl ih =>
    obtain ⟨name, d⟩ := md
    cases d with
    | none =>
      show List.foldl _ init tl = _
      rw [ih]
      simp [ctxChunk]
    | some code =>
      show List.foldl _
        (init ++ "# Module: ".toList ++ name ++ "\n```python\n".toList
          ++ code ++ "\n```\n\n".toList) tl = _
      rw [ih]
      simp [ctxChunk, List.append_assoc]

/-- C9: `get_codebase_context` returns the empty string on an empty module
mapping, and on a non-empty mapping every entry that carries a code field
contributes its module name and its full code verbatim (as substrings) to the
produced block. -/
theorem c9_codebase_context_contents :
    get_codebase_context [] = [] ∧
    ∀ (modules : List (List Char × Option (List Char))) (n c : List Char),
      (n, some c) ∈ modules →
        n <:+: get_codebase_context modules ∧
        c <:+: get_codebase_context modules := by
  constructor
  · rfl
  · intro modules n c hmem
    have hne : modules ≠ [] := List.ne_nil_of_mem hmem
    have hE : modules.isEmpty = false := by
      cases modules with
      | nil => exact absurd rfl hne
      | cons a tl => rfl
    unfold get_codebase_context
    rw [hE]
    simp only [Bool.false_eq_true, if_false, foldl_ctxChunk]
    have hchunk : ctxChunk (n, some c) ∈ modules.map ctxChunk :=
      List.mem_map_of_mem _ hmem
    have hinf : ctxChunk (n, some c) <:+: (modules.map ctxChunk).flatten :=
      List.infix_of_mem_flatten hchunk
    have h1 : n <:+: ctxChunk (n, some c) :=
      infix_of_decomp "# Module: ".toList
        ("\n```python\n".toList ++ c ++ "\n```\n\n".toList)
        (by simp [ctxChunk, List.append_assoc])
    have h2 : c <:+: ctxChunk (n, some c) :=
      infix_of_decomp ("# Module: ".toList ++ n ++ "\n```python\n".toList)
        "\n```\n\n".toList
        (by simp [ctxChunk, List.append_assoc])
    exact ⟨infix_extend_left _ (h1.trans hinf), infix_extend_left _ (h2.trans hinf)⟩

theorem c9_witness :
    ("m".toList, some "x = 1".toList) ∈ [("m".toList, some "x = 1".toList)] ∧
    "m".toList <:+: get_codebase_context [("m".toList, some "x = 1".toList)] ∧
    "x = 1".toList <:+: get_codebase_context [("m".toList, some "x = 1".toList)] :=
  ⟨by decide,
    (c9_codebase_context_contents.2 [("m".toList, some "x = 1".toList)]
      "m".toList "x = 1".toList (by decide)).1,
    (c9_codebase_context_contents.2 [("m".toList, some "x = 1".toList)]
      "m".toList "x = 1".toList (by decide)).2⟩

theorem prompt_cases (gcp : List Char → Option (List Char))
    (modules : List (List Char × Option (List Char)))
    (description fullname : List Char)
    (existing_code : Option (List Char)) (caller_info : Option CallerInfo) :
    build_prompt gcp modules description fullname existing_code caller_info =
      if truthyOpt (function_name_of fullname) && truthyOpt existing_code then
        template1 ((fullname.splitOn '.').getD 1 [])
          (current_description_of gcp description fullname) (existing_code.getD [])
          (get_codebase_context modules) (caller_context_of fullname caller_info)
          (if check_if_empty_module_needed fullname caller_info then
            emptyModuleText fullname else [])
          (fnWord ((function_name_of fullname).getD []))
          ((function_name_of fullname).getD []) description
      else if truthyOpt (function_name_of fullname) then
        template2 ((fullname.splitOn '.').getD 1 [])
          (fnWord ((function_name_of fullname).getD []))
          ((function_name_of fullname).getD []) description
          (get_codebase_context modules) (caller_context_of fullname caller_info)
          (if check_if_empty_module_needed fullname caller_info then
            emptyModuleText fullname else [])
      else
        template3 ((fullname.splitOn '.').getD 1 []) description
          (get_codebase_context modules) (caller_context_of fullname caller_info)
          (if check_if_empty_module_needed fullname caller_info then
            emptyModuleText fullname else []) := rfl

theorem template1_cd (mn cd ex cc callc emc fw fn d : List Char) :
    cd <:+: template1 mn cd ex cc callc emc fw fn d :=
  infix_of_decomp (t1a ++ mn ++ t1b)
    (t1c ++ ex ++ t1d ++ cc ++ sep8 ++ callc ++ sep8 ++ emc ++ t1g ++ fw
      ++ nmq ++ fn ++ implSuf ++ d ++ t1j)
    (by simp only [template1, List.append_assoc])

theorem template1_cc (mn cd ex cc callc emc fw fn d : List Char) :
    cc <:+: template1 mn cd ex cc callc emc fw fn d :=
  infix_of_decomp (t1a ++ mn ++ t1b ++ cd ++ t1c ++ ex ++ t1d)
    (sep8 ++ callc ++ sep8 ++ emc ++ t1g ++ fw ++ nmq ++ fn ++ implSuf ++ d ++ t1j)
    (by simp only [template1, List.append_assoc])

theorem template1_callc (mn cd ex cc callc emc fw fn d : List Char) :
    callc <:+: template1 mn cd ex cc callc emc fw fn d :=
  infix_of_decomp (t1a ++ mn ++ t1b ++ cd ++ t1c ++ ex ++ t1d ++ cc ++ sep8)
    (sep8 ++ emc ++ t1g ++ fw ++ nmq ++ fn ++ implSuf ++ d ++ t1j)
    (by simp only [template1, List.append_assoc])

theorem template1_emc (mn cd ex cc callc emc fw fn d : List Char) :
    emc <:+: template1 mn cd ex cc callc emc fw fn d :=
  infix_of_decomp (t1a ++ mn ++ t1b ++ cd ++ t1c ++ ex ++ t1d ++ cc ++ sep8 ++ callc ++ sep8)
    (t1g ++ fw ++ nmq ++ fn ++ implSuf ++ d ++ t1j)
    (by simp only [template1, List.append_assoc])

theorem template2_d (mn fw fn d cc callc emc : List Char) :
    d <:+: template2 mn fw fn d cc callc emc :=
  infix_of_decomp (t2a ++ mn ++ t2b ++ fw ++ nmq ++ fn ++ implSuf)
    (sep8 ++ cc ++ sep8 ++ callc ++ sep8 ++ emc ++ t2e)
    (by simp only [template2, List.append_assoc])

theorem template2_cc (mn fw fn d cc callc emc : List Char) :
    cc <:+: template2 mn fw fn d cc callc emc :=
  infix_of_decomp (t2a ++ mn ++ t2b ++ fw ++ nmq ++ fn ++ implSuf ++ d ++ sep8)
    (sep8 ++ callc ++ sep8 ++ emc ++ t2e)
    (by simp only [template2, List.append_assoc])

theorem template2_callc (mn fw fn d cc callc emc : List Char) :
    callc <:+: template2 mn fw fn d cc callc emc :=
  infix_of_decomp (t2a ++ mn ++ t2b ++ fw ++ nmq ++ fn ++ implSuf ++ d ++ sep8 ++ cc ++ sep8)
    (sep8 ++ emc ++ t2e)
    (by simp only [template2, List.append_assoc])

theorem template2_emc (mn fw fn d cc callc emc : List Char) :
    emc <:+: template2 mn fw fn d cc callc emc :=
  infix_of_decomp
    (t2a ++ mn ++ t2b ++ fw ++ nmq ++ fn ++ implSuf ++ d ++ sep8 ++ cc ++ sep8 ++ callc ++ sep8)
    t2e
    (by simp only [template2, List.append_assoc])

theorem template3_d (mn d cc callc emc : List Char) :
    d <:+: template3 mn d cc callc emc :=
  infix_of_decomp (t3a ++ mn ++ implSuf)
    (sep8 ++ cc ++ sep8 ++ callc ++ sep8 ++ emc ++ t3e)
    (by simp only [template3, List.append_assoc])

theorem template3_cc (mn d cc callc emc : List Char) :
    cc <:+: template3 mn d cc callc emc :=
  infix_of_decomp (t3a ++ mn ++ implSuf ++ d ++ sep8)
    (sep8 ++ callc ++ sep8 ++ emc ++ t3e)
    (by simp only [template3, List.append_assoc])

theorem template3_callc (mn d cc callc emc : List Char) :
    callc <:+: template3 mn d cc callc emc :=
  infix_of_decomp (t3a ++ mn ++ implSuf ++ d ++ sep8 ++ cc ++ sep8)
    (sep8 ++ emc ++ t3e)
    (by simp only [template3, List.append_assoc])

theorem template3_emc (mn d cc callc emc : List Char) :
    emc <:+: template3 mn d cc callc emc :=
  infix_of_decomp (t3a ++ mn ++ implSuf ++ d ++ sep8 ++ cc ++ sep8 ++ callc ++ sep8)
    t3e
    (by simp only [template3, List.append_assoc])

theorem prompt_branch_true (gcp : List Char → Option (List Char))
    (modules : List (List Char × Option (List Char)))
    (description fullname : List Char)
    (existing_code : Option (List Char)) (caller_info : Option CallerInfo)
    (h1 : (truthyOpt (function_name_of fullname) && truthyOpt existing_code) = true) :
    build_prompt gcp modules description fullname existing_code caller_info =
      template1 ((fullname.splitOn '.').getD 1 [])
        (current_description_of gcp description fullname) (existing_code.getD [])
        (get_codebase_context modules) (caller_context_of fullname caller_info)
        (if check_if_empty_module_needed fullname caller_info then
          emptyModuleText fullname else [])
        (fnWord ((function_name_of fullname).getD []))
        ((function_name_of fullname).getD []) description := by
  rw [prompt_cases, if_pos h1]

theorem prompt_branch_mid (gcp : List Char → Option (List Char))
    (modules : List (List Char × Option (List Char)))
    (description fullname : List Char)
    (existing_code : Option (List Char)) (caller_info : Option CallerInfo)
    (h1 : (truthyOpt (function_name_of fullname) && truthyOpt existing_code) = false)
    (h2 : truthyOpt (function_name_of fullname) = true) :
    build_prompt gcp modules description fullname existing_code caller_info =
      template2 ((fullname.splitOn '.').getD 1 [])
        (fnWord ((function_name_of fullname).getD []))
        ((function_name_of fullname).getD []) description
        (get_codebase_context modules) (caller_context_of fullname caller_info)
        (if check_if_empty_module_needed fullname caller_info then
          emptyModuleText fullname else []) := by
  rw [prompt_cases, if_neg (by rw [h1]; exact Bool.false_ne_true), if_pos h2]

theorem prompt_branch_last (gcp : List Char → Option (List Char))
    (modules : List (List Char × Option (List Char)))
    (description fullname : List Char)
    (existing_code : Option (List Char)) (caller_info : Option CallerInfo)
    (h1 : (truthyOpt (function_name_of fullname) && truthyOpt existing_code) = false)
    (h2 : truthyOpt (function_name_of fullname) = false) :
    build_prompt gcp modules description fullname existing_code caller_info =
      template3 ((fullname.splitOn '.').getD 1 []) description
        (get_codebase_context modules) (caller_context_of fullname caller_info)
        (if check_if_empty_module_needed fullname caller_info then
          emptyModuleText fullname else []) := by
  rw [prompt_cases, if_neg (by rw [h1]; exact Bool.false_ne_true),
    if_neg (by rw [h2]; exact Bool.false_ne_true)]

theorem callc_infix_prompt (gcp : List Char → Option (List Char))
    (modules : List (List Char × Option (List Char)))
    (description fullname : List Char)
    (existing_code : Option (List Char)) (caller_info : Option CallerInfo) :
    caller_context_of fullname caller_info <:+:
      build_prompt gcp modules description fullname existing_code caller_info := by
  cases h1 : truthyOpt (function_name_of fullname) && truthyOpt existing_code with
  | true =>
    rw [prompt_branch_true gcp modules description fullname existing_code caller_info h1]
    exact template1_callc _ _ _ _ _ _ _ _ _
  | false =>
    cases h2 : truthyOpt (function_name_of fullname) with
    | true =>
      rw [prompt_branch_mid gcp modules description fullname existing_code caller_info h1 h2]
      exact template2_callc _ _ _ _ _ _ _
    | false =>
      rw [prompt_branch_last gcp modules description fullname existing_code caller_info h1 h2]
      exact template3_callc _ _ _ _ _

theorem cc_infix_prompt (gcp : List Char → Option (List Char))
    (modules : List (List Char × Option (List Char)))
    (description fullname : List Char)
    (existing_code : Option (List Char)) (caller_info : Option CallerInfo) :
    get_codebase_context modules <:+:
      build_prompt gcp modules description fullname existing_code caller_info := by
  cases h1 : truthyOpt (function_name_of fullname) && truthyOpt existing_code with
  | true =>
    rw [prompt_branch_true gcp modules description fullname existing_code caller_info h1]
    exact template1_cc _ _ _ _ _ _ _ _ _
  | false =>
    cases h2 : truthyOpt (function_name_of fullname) with
    | true =>
      rw [prompt_branch_mid gcp modules description fullname existing_code caller_info h1 h2]
      exact template2_cc _ _ _ _ _ _ _
    | false =>
      rw [prompt_branch_last gcp modules description fullname existing_code caller_info h1 h2]
      exact template3_cc _ _ _ _ _

theorem emc_infix_prompt (gcp : List Char → Option (List Char))
    (modules : List (List Char × Option (List Char)))
    (description fullname : List Char)
    (existing_code : Option (List Char)) (caller_info : Option CallerInfo) :
    (if check_if_empty_module_needed fullname caller_info then
      emptyModuleText fullname else []) <:+:
      build_prompt gcp modules description fullname existing_code caller_info := by
  cases h1 : truthyOpt (function_name_of fullname) && truthyOpt existing_code with
  | true =>
    rw [prompt_branch_true gcp modules description fullname existing_code caller_info h1]
    exact template1_emc _ _ _ _ _ _ _ _ _
  | false =>
    cases h2 : truthyOpt (function_name_of fullname) with
    | true =>
      rw [prompt_branch_mid gcp modules description fullname existing_code caller_info h1 h2]
      exact template2_emc _ _ _ _ _ _ _
    | false =>
      rw [prompt_branch_last gcp modules description fullname existing_code caller_info h1 h2]
      exact template3_emc _ _ _ _ _

theorem pyIn_iff_infix (pat s : List Char) : pyIn pat s = true ↔ pat <:+: s := by
  induction s with
  | nil =>
    rw [pyIn, List.isPrefixOf_iff_prefix, List.prefix_nil, List.infix_nil]
  | cons c rest ih =>
    rw [pyIn, Bool.or_eq_true, List.isPrefixOf_iff_prefix, ih, List.infix_cons_iff]

/-- C2 (counterexample): the claim asserts that all three prompt templates
embed the overall library purpose description, defined as the cached
description when one exists.  At this concrete input a cached description
`LIBPURPOSE` exists for the two-segment module, the request selects the
new-module-with-one-symbol template (symbol present, no existing code), and
the constructed prompt does not contain `LIBPURPOSE`: only the
extend-existing-module template interpolates `current_description`. -/
theorem c2_counterexample :
    (fun _ : List Char => some "LIBPURPOSE".toList) "a.b".toList
        = some "LIBPURPOSE".toList ∧
    ¬ ("LIBPURPOSE".toList <:+:
        build_prompt (fun _ => some "LIBPURPOSE".toList) [] "D".toList
          "a.b.c".toList none none) := by
  refine ⟨rfl, ?_⟩
  have hfalse : pyIn "LIBPURPOSE".toList
      (build_prompt (fun _ => some "LIBPURPOSE".toList) [] "D".toList
        "a.b.c".toList none none) = false := by
    set_option maxRecDepth 100000 in decide
  intro h
  rw [← pyIn_iff_infix, hfalse] at h
  exact Bool.false_ne_true h

/-- C2 (amended): for every generation request (dotted name with at least two
segments), the constructed prompt embeds the codebase-context block, the
caller-context block, and the empty-module slot, which is the minimal
near-empty-implementation instruction exactly when the heuristic fired and
the empty string otherwise; the extend-existing-module template embeds the
overall purpose description `current_description` (the cached description
when a non-empty one exists, else the caller-supplied description), while
the new-module and new-package templates embed the caller-supplied
description. -/
theorem c2_prompt_embeds_blocks (gcp : List Char → Option (List Char))
    (modules : List (List Char × Option (List Char)))
    (description fullname : List Char)
    (existing_code : Option (List Char)) (caller_info : Option CallerInfo)
    (_hlen : 2 ≤ (fullname.splitOn '.').length) :
    ((truthyOpt (function_name_of fullname) && truthyOpt existing_code) = true →
      current_description_of gcp description fullname <:+:
        build_prompt gcp modules description fullname existing_code caller_info) ∧
    ((truthyOpt (function_name_of fullname) && truthyOpt existing_code) = false →
      description <:+:
        build_prompt gcp modules description fullname existing_code caller_info) ∧
    (get_codebase_context modules <:+:
      build_prompt gcp modules description fullname existing_code caller_info) ∧
    (caller_context_of fullname caller_info <:+:
      build_prompt gcp modules description fullname existing_code caller_info) ∧
    ((if check_if_empty_module_needed fullname caller_info then
        emptyModuleText fullname else []) <:+:
      build_prompt gcp modules description fullname existing_code caller_info) := by
  refine ⟨?_, ?_,
    cc_infix_prompt gcp modules description fullname existing_code caller_info,
    callc_infix_prompt gcp modules description fullname existing_code caller_info,
    emc_infix_prompt gcp modules description fullname existing_code caller_info⟩
  · intro h1
    rw [prompt_branch_true gcp modules description fullname existing_code caller_info h1]
    exact template1_cd _ _ _ _ _ _ _ _ _
  · intro h1
    cases h2 : truthyOpt (function_name_of fullname) with
    | true =>
      rw [prompt_branch_mid gcp modules description fullname existing_code caller_info h1 h2]
      exact template2_d _ _ _ _ _ _ _
    | false =>
      rw [prompt_branch_last gcp modules description fullname existing_code caller_info h1 h2]
      exact template3_d _ _ _ _ _

theorem c2_witness :
    2 ≤ (("a.b.c".toList).splitOn '.').length ∧
    (((truthyOpt (function_name_of "a.b.c".toList) && truthyOpt (some "x = 1".toList)) = true →
      current_description_of (fun _ => none) "D".toList "a.b.c".toList <:+:
        build_prompt (fun _ => none) [] "D".toList "a.b.c".toList
          (some "x = 1".toList) none) ∧
    ((truthyOpt (function_name_of "a.b.c".toList) && truthyOpt (some "x = 1".toList)) = false →
      "D".toList <:+:
        build_prompt (fun _ => none) [] "D".toList "a.b.c".toList
          (some "x = 1".toList) none) ∧
    (get_codebase_context [] <:+:
      build_prompt (fun _ => none) [] "D".toList "a.b.c".toList
        (some "x = 1".toList) none) ∧
    (caller_context_of "a.b.c".toList none <:+:
      build_prompt (fun _ => none) [] "D".toList "a.b.c".toList
        (some "x = 1".toList) none) ∧
    ((if check_if_empty_module_needed "a.b.c".toList none then
        emptyModuleText "a.b.c".toList else []) <:+:
      build_prompt (fun _ => none) [] "D".toList "a.b.c".toList
        (some "x = 1".toList) none)) :=
  ⟨by decide,
    c2_prompt_embeds_blocks (fun _ => none) [] "D".toList "a.b.c".toList
      (some "x = 1".toList) none (by decide)⟩

theorem code_infix_callc (fullname : List Char) (ci : CallerInfo)
    (hcode : ci.code.isEmpty = false) :
    ci.code <:+: caller_context_of fullname (some ci) := by
  have hbranch1 : ∀ (fn join code : List Char),
      code <:+: cr1 ++ fn ++ cr2 ++ join ++ cr3 ++ code ++ cr4 := fun fn join code =>
    infix_of_decomp (cr1 ++ fn ++ cr2 ++ join ++ cr3) cr4
      (by simp only [List.append_assoc])
  have hbranch2 : ∀ (fn code : List Char),
      code <:+: cf1 ++ fn ++ cf2 ++ code ++ cf3 := fun fn code =>
    infix_of_decomp (cf1 ++ fn ++ cf2) cf3 (by simp only [List.append_assoc])
  unfold caller_context_of
  simp only [hcode]
  rw [if_neg Bool.false_ne_true]
  split
  · exact hbranch1 _ _ _
  · exact hbranch2 _ _

/-- C10: whenever caller info with non-empty code is supplied, the full
caller source is embedded verbatim in the constructed prompt; the relevance
filter only prepends snippets (both branches of the caller-context block
interpolate the full `code`), and every template embeds the caller-context
block. -/
theorem c10_caller_code_in_prompt (gcp : List Char → Option (List Char))
    (modules : List (List Char × Option (List Char)))
    (description fullname : List Char)
    (existing_code : Option (List Char)) (ci : CallerInfo)
    (hcode : ci.code.isEmpty = false) :
    ci.code <:+:
      build_prompt gcp modules description fullname existing_code (some ci) :=
  (code_infix_callc fullname ci hcode).trans
    (callc_infix_prompt gcp modules description fullname existing_code (some ci))

theorem c10_witness :
    (CallerInfo.mk "f.py".toList "from a.b import c".toList).code.isEmpty = false ∧
    (CallerInfo.mk "f.py".toList "from a.b import c".toList).code <:+:
      build_prompt (fun _ => none) [] "D".toList "a.b.c".toList none
        (some (CallerInfo.mk "f.py".toList "from a.b import c".toList)) :=
  ⟨by decide,
    c10_caller_code_in_prompt (fun _ => none) [] "D".toList "a.b.c".toList none
      (CallerInfo.mk "f.py".toList "from a.b import c".toList) (by decide)⟩

theorem dropWhile_append_stable (a y : List Char)
    (ha : a.dropWhile pySpace = a) (hne : a ≠ []) :
    (a ++ y).dropWhile pySpace = a ++ y := by
  cases a with
  | nil => exact absurd rfl hne
  | cons x t =>
    have px : pySpace x = false := by
      by_contra hcon
      rw [Bool.not_eq_false] at hcon
      rw [List.dropWhile_cons, if_pos hcon] at ha
      have hlen := (List.dropWhile_sublist (p := pySpace) (l := t)).length_le
      rw [ha] at hlen
      simp at hlen
    show List.dropWhile pySpace (x :: (t ++ y)) = x :: (t ++ y)
    rw [List.dropWhile_cons, if_neg (by rw [px]; exact Bool.false_ne_true)]

theorem pyStrip_sandwich (a x c : List Char)
    (ha : a.dropWhile pySpace = a) (hane : a ≠ [])
    (hc : c.reverse.dropWhile pySpace = c.reverse) (hcne : c.reverse ≠ []) :
    pyStrip (a ++ x ++ c) = a ++ x ++ c := by
  unfold pyStrip
  rw [List.append_assoc, dropWhile_append_stable a (x ++ c) ha hane,
    List.reverse_append, List.reverse_append, List.append_assoc,
    dropWhile_append_stable c.reverse (x.reverse ++ a.reverse) hc hcne]
  simp [List.reverse_append, List.append_assoc]

theorem replaceFirst_prefix (pat repl rest : List Char) (hp : pat ≠ []) :
    replaceFirst pat repl (pat ++ rest) = repl ++ rest := by
  cases pat with
  | nil => exact absurd rfl hp
  | cons p ps =>
    show replaceFirst (p :: ps) repl (p :: (ps ++ rest)) = repl ++ rest
    rw [replaceFirst]
    have hpre : (p :: ps).isPrefixOf (p :: (ps ++ rest)) = true := by
      rw [List.isPrefixOf_iff_prefix]
      exact List.prefix_append (p :: ps) rest
    rw [if_pos hpre]
    have harg : (p :: (ps ++ rest)) = (p :: ps) ++ rest := rfl
    rw [harg, List.drop_left]

theorem replaceFirst_run3 (b : Char) (inner : List Char)
    (h : ¬ ([b, b, b] <:+: inner)) :
    replaceFirst [b, b, b] [] (inner ++ [b, b, b]) = inner := by
  induction inner with
  | nil => simpa using replaceFirst_prefix [b, b, b] [] [] (by simp)
  | cons a t ih =>
    show replaceFirst [b, b, b] [] (a :: (t ++ [b, b, b])) = a :: t
    by_cases hpre : [b, b, b] <+: a :: (t ++ [b, b, b])
    · obtain ⟨hab, hpre2⟩ := List.cons_prefix_cons.mp hpre
      cases t with
      | nil =>
        rw [← hab]
        simp [replaceFirst, List.isPrefixOf]
      | cons x t' =>
        obtain ⟨hxb, hpre3⟩ := List.cons_prefix_cons.mp hpre2
        cases t' with
        | nil =>
          rw [← hab, ← hxb]
          simp [replaceFirst, List.isPrefixOf]
        | cons y t'' =>
          obtain ⟨hyb, _⟩ := List.cons_prefix_cons.mp hpre3
          exfalso
          apply h
          have hp3 : [b, b, b] <+: a :: x :: y :: t'' := by
            rw [List.cons_prefix_cons]
            exact ⟨hab, by
              rw [List.cons_prefix_cons]
              exact ⟨hxb, by
                rw [List.cons_prefix_cons]
                exact ⟨hyb, List.nil_prefix⟩⟩⟩
          exact hp3.isInfix
    · have hfalse : [b, b, b].isPrefixOf (a :: (t ++ [b, b, b])) = false := by
        rw [← Bool.not_eq_true, List.isPrefixOf_iff_prefix]
        exact hpre
      rw [replaceFirst, if_neg (by rw [hfalse]; exact Bool.false_ne_true)]
      have ht : ¬ ([b, b, b] <:+: t) := fun hc => h (List.infix_cons hc)
      rw [ih ht]

/-- C3 (counterexample): the claim asserts that for a response wrapped in a
language-tagged opening fence and a closing fence, exactly one opening and
one closing fence are stripped and the inner text is returned unchanged up to
the final trim, for every inner text including inner text containing fence
markers.  At inner text `\na\n` + three backticks + `\nb\n` the second
`replace` removes the first fence occurrence inside the inner text instead of
the closing fence, so the result differs from the trimmed inner text. -/
theorem c3_counterexample :
    strip_markdown
        ("```python".toList ++ "\na\n```\nb\n".toList ++ "```".toList)
      ≠ pyStrip "\na\n```\nb\n".toList := by
  decide

/-- C3 (amended): for a service response that is exactly an opening
`python`-tagged fence, then inner text containing no triple-backtick
occurrence, then a closing fence, the client strips exactly one opening and
one closing fence and returns the inner text up to the final whitespace
trim. -/
theorem c3_fence_strip (inner : List Char)
    (h : ¬ ("```".toList <:+: inner)) :
    strip_markdown ("```python".toList ++ inner ++ "```".toList)
      = pyStrip inner := by
  have hstrip : pyStrip ("```python".toList ++ inner ++ "```".toList)
      = "```python".toList ++ inner ++ "```".toList :=
    pyStrip_sandwich _ _ _ (by decide) (by decide) (by decide) (by decide)
  unfold strip_markdown
  rw [hstrip]
  have hfences : strip_fences ("```python".toList ++ inner ++ "```".toList)
      = inner := by
    have hcond : "```python".toList.isPrefixOf
        ("```python".toList ++ inner ++ "```".toList) = true := by
      rw [List.isPrefixOf_iff_prefix, List.append_assoc]
      exact List.prefix_append _ _
    unfold strip_fences
    rw [if_pos hcond, List.append_assoc,
      replaceFirst_prefix "```python".toList [] (inner ++ "```".toList) (by decide),
      List.nil_append]
    have h3 : "```".toList = [Char.ofNat 96, Char.ofNat 96, Char.ofNat 96] := by
      decide
    rw [h3] at h ⊢
    exact replaceFirst_run3 (Char.ofNat 96) inner h
  rw [hfences]

theorem c3_witness :
    (¬ ("```".toList <:+: "\nx = 1\n".toList)) ∧
    strip_markdown ("```python".toList ++ "\nx = 1\n".toList ++ "```".toList)
      = pyStrip "\nx = 1\n".toList :=
  ⟨by decide, c3_fence_strip "\nx = 1\n".toList (by decide)⟩
